import Mathlib

/-!
# Verification of the QuizAgent chain-walking agent

Shallow embedding of the quiz-solving agent (`main.py`) and the parts of the
mock quiz server (`mock_server.py`) that the verified claims touch.

* Python string primitives used by the source (`str.strip`, `str.splitlines`,
  `re.split("[,;\t]+", ...)`, `re.search("-?\d+", ...)`, `re.findall("-?\d+", ...)`)
  are embedded as executable functions on `List Char` / `String`.
* `answer_csv_sum` embeds the CSV-summation resolver (main.py lines 390-438),
  taking the result of the `client.get(csv_url)` call (status code and body)
  as explicit arguments.
* The chain-walking loop `run_agent_chain` (main.py lines 79-367) is embedded
  as a fuel-indexed interpreter over an abstract network environment `Env`
  that supplies, in program order, the outcome of every `client.get` and every
  `client.post`.  The page-text heuristics (lines 128-273) only produce the
  submission URL and the answer value; they are supplied by the environment as
  part of each successful fetch, since every chain-control claim is
  independent of how the answer was derived.  The interpreter emits the trace
  of observable network events (fetches, submission POSTs, sleeps, diagnostic
  `safe_submit` POSTs).
* `start_quiz` embeds the `/quiz` endpoint's validation logic (lines 44-75).
-/

namespace QuizAgent

/-! ## Python string primitives -/

/-- Python whitespace characters recognised by `str.strip()`. -/
def pyWs (c : Char) : Bool :=
  c = ' ' || c = '\t' || c = '\n' || c = '\x0d' || c = '\x0b' || c = '\x0c'

/-- `str.strip()` on a character list. -/
def stripChars (l : List Char) : List Char :=
  ((l.dropWhile pyWs).reverse.dropWhile pyWs).reverse

/-- `str.strip()`. -/
def stripPy (s : String) : String :=
  String.mk (stripChars s.toList)

/-- The delimiter class of `re.split(r"[,;\t]+", ...)` in `answer_csv_sum`. -/
def isDelim (c : Char) : Bool :=
  c = ',' || c = ';' || c = '\t'

/-- Split a character list at every single occurrence of a character
satisfying `p`, keeping empty pieces (the `n` delimiters yield `n+1` pieces). -/
def splitSingle (p : Char → Bool) : List Char → List (List Char)
  | [] => [[]]
  | c :: cs =>
    if p c then [] :: splitSingle p cs
    else
      match splitSingle p cs with
      | [] => [[c]]
      | piece :: rest => (c :: piece) :: rest

/-- Drop empty pieces except in last position: converts a single-character
split into the split on *runs* of delimiters, as `re.split(r"[d]+", s)`
produces (internal empty pieces come only from adjacent delimiters and are
absorbed into one match; the leading and trailing pieces are kept even when
empty). -/
def dropMidEmpties : List (List Char) → List (List Char)
  | [] => []
  | [x] => [x]
  | x :: y :: zs =>
    if x = [] then dropMidEmpties (y :: zs) else x :: dropMidEmpties (y :: zs)

/-- `re.split(r"[,;\t]+", s)`. -/
def splitDelims (s : String) : List String :=
  (match splitSingle isDelim s.toList with
   | [] => []
   | x :: xs => x :: dropMidEmpties xs).map String.mk

/-- `str.splitlines()` for bodies whose only line terminator is `\n` (the only
terminator occurring in this repository's data): split on `\n`, dropping the
final empty piece produced by a trailing newline; the empty string yields `[]`. -/
def splitlinesPy (s : String) : List String :=
  match s.toList with
  | [] => []
  | l =>
    let pieces := splitSingle (fun c => c = '\n') l
    (if l.getLast? = some '\n' then pieces.dropLast else pieces).map String.mk

/-- `str.lower()` on one character (ASCII range; all header names in this
repository are ASCII). -/
def lowerChar (c : Char) : Char :=
  if 'A' ≤ c && c ≤ 'Z' then Char.ofNat (c.toNat + 32) else c

/-- `str.lower()`. -/
def lowerPy (s : String) : String :=
  String.mk (s.toList.map lowerChar)

/-- Value of a list of decimal digit characters. -/
def digitsToNat (l : List Char) : Nat :=
  l.foldl (fun a c => a * 10 + (c.toNat - 48)) 0

/-- Try to match the regex `-?\d+` anchored at the head of the list; on
success return the matched integer value and the remaining characters
(the digit run is maximal, as `\d+` is greedy). -/
def matchIntAt : List Char → Option (Int × List Char)
  | '-' :: c :: cs =>
    if c.isDigit then
      some (-(digitsToNat (c :: cs.takeWhile Char.isDigit) : Int),
            cs.dropWhile Char.isDigit)
    else none
  | c :: cs =>
    if c.isDigit then
      some ((digitsToNat (c :: cs.takeWhile Char.isDigit) : Int),
            cs.dropWhile Char.isDigit)
    else none
  | [] => none

/-- `re.search(r"-?\d+", s)`: value of the leftmost match, if any. -/
def searchIntChars : List Char → Option Int
  | [] => none
  | c :: cs =>
    match matchIntAt (c :: cs) with
    | some (v, _) => some v
    | none => searchIntChars cs

/-- Fuel-driven worker for `findallInts`; every step either consumes at least
one character or stops, so fuel equal to the length of the list suffices. -/
def findallAux : Nat → List Char → List Int
  | 0, _ => []
  | _ + 1, [] => []
  | fuel + 1, c :: cs =>
    match matchIntAt (c :: cs) with
    | some (v, rest) => v :: findallAux fuel rest
    | none => findallAux fuel cs

/-- `re.findall(r"-?\d+", s)`: all leftmost non-overlapping matches, as
integer values. -/
def findallInts (l : List Char) : List Int :=
  findallAux l.length l

/-! ## Data model -/

/-- A Python answer value as produced by the agent's resolvers: an `int` or a
`str` (error markers are ordinary strings, submitted as-is). -/
inductive AnswerVal
  | int (n : Int)
  | str (s : String)
deriving DecidableEq, Repr

/-! ## CSV summation resolver (`answer_csv_sum`, main.py lines 390-438) -/

/-- Preferred header names tried in order (main.py line 410). -/
def preferredCols : List String :=
  ["population", "value", "amount", "population_total"]

/-- Embeds `answer_csv_sum(client, csv_url)`: the `client.get(csv_url)` result
is passed in as `status` (HTTP status code) and `text` (response body).
Mirrors main.py lines 396-434; the enclosing `try/except` (network failure)
is outside this pure fragment. -/
def answer_csv_sum (csv_url : String) (status : Nat) (text : String) : AnswerVal :=
  if status ≠ 200 then
    .str ("Error: could not fetch CSV " ++ csv_url ++ " (status " ++ toString status ++ ")")
  else
    match splitlinesPy (stripPy text) with
    | [] => .str "Error: empty CSV"
    | headerLine :: rows =>
      let cols := (splitDelims (stripPy headerLine)).map (fun h => lowerPy (stripPy h))
      let found : Option Nat :=
        (preferredCols.find? (fun p => cols.contains p)).map (fun p => cols.indexOf p)
      let target_idx : Option Nat :=
        match found with
        | some i => some i
        | none => if 2 ≤ cols.length then some (cols.length - 1) else none
      .int (rows.foldl (fun total row =>
        let parts := splitDelims (stripPy row)
        match target_idx with
        | some ti =>
          if ti < parts.length then
            let val := stripPy (parts.getD ti "")
            match searchIntChars (val.toList.filter (fun c => c ≠ ',')) with
            | some v => total + v
            | none => total + (findallInts val.toList).foldl (· + ·) 0
          else
            total + (findallInts row.toList).foldl (· + ·) 0
        | none => total + (findallInts row.toList).foldl (· + ·) 0) 0)

/-- The static CSV served by the mock server's `/files/local_cities.csv`
endpoint (mock_server.py lines 27-37), before the server's `.strip()`. -/
def csv_content : String :=
  "\nID,Name,Population\n1,New York,8175133\n2,Los Angeles,3792621\n3,Chicago,2695598\n4,Houston,2100263\n"

/-- Body actually served: the server strips the literal before responding. -/
def get_local_csv : String := stripPy csv_content

/-! ## Start endpoint validation (`start_quiz`, main.py lines 44-75) -/

/-- Outcome of the `/quiz` endpoint's validation. -/
inductive StartResp
  | unprocessable422
  | unauthorized403
  | accepted200
deriving DecidableEq, Repr

/-- Python truthiness of `payload.get(field)` for a string-typed field:
`None` (absent or JSON null) and the empty string are falsy. -/
def pyFalsy : Option String → Bool
  | none => true
  | some s => s = ""

/-- Embeds the validation in `start_quiz` for a JSON-object body with
string-typed fields (main.py lines 55-75): missing/empty fields are rejected
with 422 before the secret is compared; a wrong secret yields 403; otherwise
the run is scheduled and 200 returned. -/
def start_quiz (email secret url : Option String) (my_secret : String) : StartResp :=
  if pyFalsy email || pyFalsy secret || pyFalsy url then .unprocessable422
  else if secret ≠ some my_secret then .unauthorized403
  else .accepted200

/-! ## Chain-walking loop (`run_agent_chain`, main.py lines 79-367)

The loop is embedded as a fuel-indexed interpreter.  The network is an
abstract environment `Env`: `Env.fetch k` is the outcome of the `k`-th
`client.get(current_url)` issued by the loop, and `Env.post k` the outcome of
the `k`-th submission `client.post` (initial submissions and retry
re-submissions, in program order).  A successful fetch carries the HTTP
status together with the submission URL and answer value that the page-text
heuristics (lines 128-273) extract from the body; those heuristics only feed
the submission payload and are opaque to every chain-control decision.  -/

/-- Outcome of one `client.get(current_url)` (main.py lines 103-126):
either the call raises, or it returns a status code and a page from which the
heuristics extract an optional submission URL (line 151) and an answer. -/
inductive FetchRes
  | exc
  | ok (status : Nat) (submit_url : Option String) (answer : AnswerVal)
deriving DecidableEq, Repr

/-- Outcome of one submission `client.post` plus `resp.json()` (main.py
lines 290-310, 321-328): the call raises (`exc`), the body is not parseable
JSON (`notJson`), parses to a non-object (`nonDict`), or parses to an object
whose `correct` / `url` / `reason` fields are read with `.get`.  A `url`
field that is JSON `null` or absent is `none`; a string value (possibly
empty) is `some`. -/
inductive PostRes
  | exc
  | notJson
  | nonDict
  | dict (correct : Option Bool) (url : Option String) (reason : Option String)
deriving DecidableEq, Repr

/-- Abstract network environment driving one run. -/
structure Env where
  fetch : Nat → FetchRes
  post : Nat → PostRes

/-- The JSON submission payload (main.py lines 281-286). -/
structure Envelope where
  email : String
  secret : String
  url : String
  answer : AnswerVal
deriving DecidableEq, Repr

/-- Observable network events of a run: a page fetch, a submission POST
(initial or retry), an `asyncio.sleep` (in milliseconds), and a diagnostic
`safe_submit` POST (main.py lines 371-387) carrying the failing URL and an
error string. -/
inductive Ev
  | fetch (url : String)
  | post (url : String) (payload : Envelope)
  | sleep (ms : Nat)
  | safe_submit (url : String) (answer : String)
deriving DecidableEq, Repr

/-- Python truthiness of the `url` field (`if next_url:`): `None` and the
empty string are falsy. -/
def pyTruthy : Option String → Bool
  | none => false
  | some s => s ≠ ""

/-- Outcome of the retry loop (main.py lines 314-333): a retry attempt
returned a dict with truthy `correct` (`success`, carrying that response's
`url` field); both attempts were consumed without success (`exhausted`); or a
retry POST raised, escaping to the outer `except` handler (`aborted`). -/
inductive RetryOut
  | success (next_url : Option String)
  | exhausted
  | aborted
deriving DecidableEq, Repr

/-- The retry loop `for attempt in range(2)` (main.py lines 316-333): before
each attempt sleep 1s, re-POST the *same* envelope to the *same* URL, parse;
a non-dict or unparseable body counts as a failed attempt
(`resp_json2 = None`); a dict short-circuits when `resp_json2.get("correct",
False)` is truthy.  Returns the outcome, the next unused post index, and the
events emitted. -/
def retryGo (env : Env) (su : String) (payload : Envelope) :
    Nat → Nat → RetryOut × Nat × List Ev
  | 0, pi => (.exhausted, pi, [])
  | n + 1, pi =>
    let evs := [Ev.sleep 1000, Ev.post su payload]
    match env.post pi with
    | .exc => (.aborted, pi + 1, evs)
    | .notJson =>
      let r := retryGo env su payload n (pi + 1)
      (r.1, r.2.1, evs ++ r.2.2)
    | .nonDict =>
      let r := retryGo env su payload n (pi + 1)
      (r.1, r.2.1, evs ++ r.2.2)
    | .dict c u _ =>
      if c.getD false then (.success u, pi + 1, evs)
      else
        let r := retryGo env su payload n (pi + 1)
        (r.1, r.2.1, evs ++ r.2.2)

/-- Result of one loop iteration past the guards: `stop evs fi pi` is a
`break` after emitting `evs`; `next u evs fi pi` is a `continue` with
`current_url = u`.  The counters are the next unused fetch / post indices. -/
inductive StepResult
  | stop (events : List Ev) (fi pi : Nat)
  | next (url : String) (events : List Ev) (fi pi : Nat)
deriving DecidableEq, Repr

/-- Events emitted by a step. -/
def stepEvents : StepResult → List Ev
  | .stop evs _ _ => evs
  | .next _ evs _ _ => evs

/-- Whether the step broke out of the loop. -/
def isStopRes : StepResult → Bool
  | .stop _ _ _ => true
  | .next _ _ _ _ => false

/-- One iteration of the chain loop past the `current_url` guards (main.py
lines 103-365): fetch the page; on exception or status >= 400, diagnostic
`safe_submit` and break; extract the submission URL (no URL: break); POST the
envelope; on POST exception, diagnostic and break; on unparseable body, break
(no diagnostic); read `correct` (default `True`), `url`, `reason`; when
`correct` is falsy and `url` is falsy run the retry loop; follow a truthy
next URL (with a 0.25 s pacing sleep) or break. -/
def doStep (env : Env) (email secret : String) (current_url : String)
    (fi pi : Nat) : StepResult :=
  match env.fetch fi with
  | .exc =>
    .stop [Ev.fetch current_url,
      Ev.safe_submit current_url ("Error: could not fetch " ++ current_url)]
      (fi + 1) pi
  | .ok status submit_url answer =>
    if 400 ≤ status then
      .stop [Ev.fetch current_url,
        Ev.safe_submit current_url
          ("Error: HTTP " ++ toString status ++ " for " ++ current_url)]
        (fi + 1) pi
    else
      match submit_url with
      | none => .stop [Ev.fetch current_url] (fi + 1) pi
      | some su =>
        let payload : Envelope := ⟨email, secret, current_url, answer⟩
        let pre := [Ev.fetch current_url, Ev.post su payload]
        match env.post pi with
        | .exc =>
          .stop (pre ++ [Ev.safe_submit current_url "Error: submission failed"])
            (fi + 1) (pi + 1)
        | .notJson => .stop pre (fi + 1) (pi + 1)
        | .nonDict => .stop pre (fi + 1) (pi + 1)
        | .dict c u _ =>
          let correct : Bool := c.getD true
          if !correct && !(pyTruthy u) then
            match retryGo env su payload 2 (pi + 1) with
            | (.success nu, pi2, evs) =>
              if pyTruthy nu then
                .next (nu.getD "") (pre ++ evs ++ [Ev.sleep 250]) (fi + 1) pi2
              else
                .stop (pre ++ evs) (fi + 1) pi2
            | (.exhausted, pi2, evs) =>
              .stop (pre ++ evs ++
                [Ev.safe_submit current_url "Error: AI could not determine the answer."])
                (fi + 1) pi2
            | (.aborted, pi2, evs) =>
              .stop (pre ++ evs ++
                [Ev.safe_submit current_url "Error: submission failed"])
                (fi + 1) pi2
          else
            if pyTruthy u then
              .next (u.getD "") (pre ++ [Ev.sleep 250]) (fi + 1) (pi + 1)
            else
              .stop pre (fi + 1) (pi + 1)

/-- The loop `for step in range(MAX_STEPS)` (main.py lines 94-365): the fuel
is the number of remaining iterations.  Each iteration first checks that
`current_url` is non-empty and unvisited, adds it to `visited`, and runs one
step; a `next` result recurses with one iteration fewer. -/
def runFrom (env : Env) (email secret : String) :
    Nat → String → List String → Nat → Nat → List Ev
  | 0, _, _, _, _ => []
  | fuel + 1, current_url, visited, fi, pi =>
    if current_url = "" then []
    else if current_url ∈ visited then []
    else
      match doStep env email secret current_url fi pi with
      | .stop evs _ _ => evs
      | .next nxt evs fi2 pi2 =>
        evs ++ runFrom env email secret fuel nxt (current_url :: visited) fi2 pi2

/-- `MAX_STEPS = 20` (main.py line 92). -/
def MAX_STEPS : Nat := 20

/-- The whole run (main.py lines 90-94): start at `start_url` with an empty
visited set and at most `MAX_STEPS` iterations. -/
def run_agent_chain (env : Env) (email secret start_url : String) : List Ev :=
  runFrom env email secret MAX_STEPS start_url [] 0 0

/-! ## Trace observations -/

/-- URLs fetched, in order. -/
def fetchUrls (t : List Ev) : List String :=
  t.filterMap fun e => match e with | .fetch u => some u | _ => none

/-- Submission POST events, in order. -/
def postEvents (t : List Ev) : List Ev :=
  t.filter fun e => match e with | .post _ _ => true | _ => false

/-- Number of diagnostic `safe_submit` POSTs. -/
def safeCount (t : List Ev) : Nat :=
  (t.filter fun e => match e with | .safe_submit _ _ => true | _ => false).length

/-- Number of `sleep` events of a given duration. -/
def sleepCount (ms : Nat) (t : List Ev) : Nat :=
  (t.filter fun e => match e with | .sleep m => m = ms | _ => false).length

/-- Whether a retry response signals success: a dict whose
`.get("correct", False)` is truthy (main.py lines 328-330). -/
def isRetrySuccess : PostRes → Bool
  | .dict c _ _ => c.getD false
  | _ => false

/-- The `url` field read out of a submission response dict (`None` for the
other shapes, as `resp_json2.get("url")` is only reached on a dict). -/
def urlField : PostRes → Option String
  | .dict _ u _ => u
  | _ => none

/-! ## Concrete environments used in witnesses and counterexamples -/

/-- Environment whose submission endpoint always answers
`{correct: false, url: null}` (every retry fails). -/
def envC3 : Env :=
  ⟨fun _ => .ok 200 (some "S") (.str "a"),
   fun _ => .dict (some false) none none⟩

/-- Environment whose first submission response is `{correct: false,
url: null}` and whose first retry response is a dict with `correct` absent
but a next URL present. -/
def envC4 : Env :=
  ⟨fun _ => .ok 200 (some "S") (.str "a"),
   fun k =>
     match k with
     | 0 => .dict (some false) none none
     | 1 => .dict none (some "http://next") none
     | _ => .dict (some true) none none⟩

/-- Environment whose initial submission response is a dict with `correct`
absent and a next URL present. -/
def envC4w : Env :=
  ⟨fun _ => .ok 200 (some "S") (.str "a"),
   fun _ => .dict none (some "http://next") none⟩

/-- Environment whose first submission response forces a retry and whose
retry responses are dicts with `correct` absent. -/
def envC4w2 : Env :=
  ⟨fun _ => .ok 200 (some "S") (.str "a"),
   fun k =>
     match k with
     | 0 => .dict (some false) none none
     | _ => .dict none none none⟩

/-- Environment whose submission endpoint answers with a body that is not
parseable JSON. -/
def envC5 : Env :=
  ⟨fun _ => .ok 200 (some "S") (.str "a"), fun _ => .notJson⟩

/-- Environment whose first submission response is `{correct: false,
url: ""}` (a non-null but empty next URL) and whose retries fail. -/
def envC6 : Env :=
  ⟨fun _ => .ok 200 (some "S") (.str "a"),
   fun k =>
     match k with
     | 0 => .dict (some false) (some "") none
     | _ => .dict (some false) none none⟩

/-- Environment whose first submission response is `{correct: false,
url: "http://next"}`. -/
def envC6w : Env :=
  ⟨fun _ => .ok 200 (some "S") (.str "a"),
   fun _ => .dict (some false) (some "http://next") none⟩

/-- Environment whose pages all answer HTTP 404. -/
def envC7 : Env :=
  ⟨fun _ => .ok 404 none (.str "a"), fun _ => .notJson⟩

/-- Environment for the retry-with-unparseable-body scenario: initial
response forces a retry, the first retry body is not JSON, the second retry
succeeds with a next URL. -/
def envC9 : Env :=
  ⟨fun _ => .ok 200 (some "S") (.str "a"),
   fun k =>
     match k with
     | 0 => .dict (some false) none none
     | 1 => .notJson
     | _ => .dict (some true) (some "http://next") none⟩

/-- Environment used by the loop-prevention witness. -/
def envC2 : Env :=
  ⟨fun _ => .ok 200 (some "S") (.str "a"),
   fun _ => .dict (some true) (some "u0") none⟩

/-! ## Helper lemmas -/

@[simp] theorem fetchUrls_nil : fetchUrls [] = [] := rfl

@[simp] theorem fetchUrls_cons_fetch (u : String) (t : List Ev) :
    fetchUrls (Ev.fetch u :: t) = u :: fetchUrls t := rfl

@[simp] theorem fetchUrls_cons_post (u : String) (P : Envelope) (t : List Ev) :
    fetchUrls (Ev.post u P :: t) = fetchUrls t := rfl

@[simp] theorem fetchUrls_cons_sleep (ms : Nat) (t : List Ev) :
    fetchUrls (Ev.sleep ms :: t) = fetchUrls t := rfl

@[simp] theorem fetchUrls_cons_safe (u a : String) (t : List Ev) :
    fetchUrls (Ev.safe_submit u a :: t) = fetchUrls t := rfl

@[simp] theorem postEvents_nil : postEvents [] = [] := rfl

@[simp] theorem postEvents_cons_fetch (u : String) (t : List Ev) :
    postEvents (Ev.fetch u :: t) = postEvents t := rfl

@[simp] theorem postEvents_cons_post (u : String) (P : Envelope) (t : List Ev) :
    postEvents (Ev.post u P :: t) = Ev.post u P :: postEvents t := rfl

@[simp] theorem postEvents_cons_sleep (ms : Nat) (t : List Ev) :
    postEvents (Ev.sleep ms :: t) = postEvents t := rfl

@[simp] theorem postEvents_cons_safe (u a : String) (t : List Ev) :
    postEvents (Ev.safe_submit u a :: t) = postEvents t := rfl

@[simp] theorem safeCount_nil : safeCount [] = 0 := rfl

@[simp] theorem safeCount_cons_fetch (u : String) (t : List Ev) :
    safeCount (Ev.fetch u :: t) = safeCount t := rfl

@[simp] theorem safeCount_cons_post (u : String) (P : Envelope) (t : List Ev) :
    safeCount (Ev.post u P :: t) = safeCount t := rfl

@[simp] theorem safeCount_cons_sleep (ms : Nat) (t : List Ev) :
    safeCount (Ev.sleep ms :: t) = safeCount t := rfl

@[simp] theorem safeCount_cons_safe (u a : String) (t : List Ev) :
    safeCount (Ev.safe_submit u a :: t) = safeCount t + 1 := rfl

@[simp] theorem sleepCount_nil (ms : Nat) : sleepCount ms [] = 0 := rfl

@[simp] theorem sleepCount_cons_fetch (ms : Nat) (u : String) (t : List Ev) :
    sleepCount ms (Ev.fetch u :: t) = sleepCount ms t := rfl

@[simp] theorem sleepCount_cons_post (ms : Nat) (u : String) (P : Envelope) (t : List Ev) :
    sleepCount ms (Ev.post u P :: t) = sleepCount ms t := rfl

@[simp] theorem sleepCount_cons_safe (ms : Nat) (u a : String) (t : List Ev) :
    sleepCount ms (Ev.safe_submit u a :: t) = sleepCount ms t := rfl

theorem sleepCount_cons_sleep (ms m : Nat) (t : List Ev) :
    sleepCount ms (Ev.sleep m :: t) =
      if m = ms then sleepCount ms t + 1 else sleepCount ms t := by
  by_cases h : m = ms <;> simp [sleepCount, List.filter_cons, h]

theorem fetchUrls_append (a b : List Ev) :
    fetchUrls (a ++ b) = fetchUrls a ++ fetchUrls b := by
  simp [fetchUrls]

theorem postEvents_append (a b : List Ev) :
    postEvents (a ++ b) = postEvents a ++ postEvents b := by
  simp [postEvents]

theorem safeCount_append (a b : List Ev) :
    safeCount (a ++ b) = safeCount a + safeCount b := by
  simp [safeCount]

theorem sleepCount_append (ms : Nat) (a b : List Ev) :
    sleepCount ms (a ++ b) = sleepCount ms a + sleepCount ms b := by
  simp [sleepCount]

/-- The retry loop issues no page fetches. -/
theorem retryGo_fetchUrls (env : Env) (su : String) (P : Envelope) :
    ∀ n pi, fetchUrls (retryGo env su P n pi).2.2 = [] := by
  intro n
  induction n with
  | zero => intro pi; rfl
  | succ m ih =>
    intro pi
    cases hp : env.post pi with
    | exc => simp only [retryGo, hp]; rfl
    | notJson =>
      simp only [retryGo, hp]
      rw [fetchUrls_append, ih]
      rfl
    | nonDict =>
      simp only [retryGo, hp]
      rw [fetchUrls_append, ih]
      rfl
    | dict c u r =>
      cases hc : c.getD false with
      | true => simp only [retryGo, hp, hc, if_pos]; rfl
      | false =>
        simp only [retryGo, hp, hc, Bool.false_eq_true, if_false]
        rw [fetchUrls_append, ih]
        rfl

/-- The retry loop issues no diagnostic submissions. -/
theorem retryGo_safeCount (env : Env) (su : String) (P : Envelope) :
    ∀ n pi, safeCount (retryGo env su P n pi).2.2 = 0 := by
  intro n
  induction n with
  | zero => intro pi; rfl
  | succ m ih =>
    intro pi
    cases hp : env.post pi with
    | exc => simp only [retryGo, hp]; rfl
    | notJson =>
      simp only [retryGo, hp]
      rw [safeCount_append, ih]
      rfl
    | nonDict =>
      simp only [retryGo, hp]
      rw [safeCount_append, ih]
      rfl
    | dict c u r =>
      cases hc : c.getD false with
      | true => simp only [retryGo, hp, hc, if_pos]; rfl
      | false =>
        simp only [retryGo, hp, hc, Bool.false_eq_true, if_false]
        rw [safeCount_append, ih]
        rfl

/-- In `n` available retry attempts, between `0` and `n` re-submissions are
issued, each to the same URL with the same envelope, and each preceded by its
1-second sleep. -/
theorem retryGo_spec (env : Env) (su : String) (P : Envelope) :
    ∀ n pi, ∃ k, k ≤ n ∧
      postEvents (retryGo env su P n pi).2.2 = List.replicate k (Ev.post su P) ∧
      sleepCount 1000 (retryGo env su P n pi).2.2 = k := by
  intro n
  induction n with
  | zero => intro pi; exact ⟨0, Nat.zero_le _, rfl, rfl⟩
  | succ m ih =>
    intro pi
    cases hp : env.post pi with
    | exc =>
      refine ⟨1, by omega, ?_, ?_⟩ <;> simp only [retryGo, hp] <;> rfl
    | notJson =>
      obtain ⟨k, hk, h1, h2⟩ := ih (pi + 1)
      refine ⟨k + 1, by omega, ?_, ?_⟩
      · simp only [retryGo, hp]
        rw [postEvents_append, h1, List.replicate_succ]
        rfl
      · simp only [retryGo, hp]
        rw [sleepCount_append, h2]
        show 1 + k = k + 1
        omega
    | nonDict =>
      obtain ⟨k, hk, h1, h2⟩ := ih (pi + 1)
      refine ⟨k + 1, by omega, ?_, ?_⟩
      · simp only [retryGo, hp]
        rw [postEvents_append, h1, List.replicate_succ]
        rfl
      · simp only [retryGo, hp]
        rw [sleepCount_append, h2]
        show 1 + k = k + 1
        omega
    | dict c u r =>
      cases hc : c.getD false with
      | true =>
        refine ⟨1, by omega, ?_, ?_⟩ <;> simp only [retryGo, hp, hc, if_pos] <;> rfl
      | false =>
        obtain ⟨k, hk, h1, h2⟩ := ih (pi + 1)
        refine ⟨k + 1, by omega, ?_, ?_⟩
        · simp only [retryGo, hp, hc, Bool.false_eq_true, if_false]
          rw [postEvents_append, h1, List.replicate_succ]
          rfl
        · simp only [retryGo, hp, hc, Bool.false_eq_true, if_false]
          rw [sleepCount_append, h2]
          show 1 + k = k + 1
          omega

/-- A retry whose response is a dict with truthy `correct` short-circuits the
retry loop at once. -/
theorem retryGo_success_head (env : Env) (su : String) (P : Envelope)
    (n pi : Nat) (h : isRetrySuccess (env.post pi) = true) :
    retryGo env su P (n + 1) pi =
      (.success (urlField (env.post pi)), pi + 1, [Ev.sleep 1000, Ev.post su P]) := by
  unfold retryGo
  cases hp : env.post pi with
  | exc => simp [isRetrySuccess, hp] at h
  | notJson => simp [isRetrySuccess, hp] at h
  | nonDict => simp [isRetrySuccess, hp] at h
  | dict c u r =>
    rw [hp] at h
    simp only [isRetrySuccess] at h
    simp [h, urlField]

/-- If no attempted retry response signals success, the loop ends in
`exhausted` or `aborted` (never `success`). -/
theorem retryGo_no_success (env : Env) (su : String) (P : Envelope) :
    ∀ n pi, (∀ j, j < n → isRetrySuccess (env.post (pi + j)) = false) →
      (retryGo env su P n pi).1 = .exhausted ∨ (retryGo env su P n pi).1 = .aborted := by
  intro n
  induction n with
  | zero => intro pi _; simp [retryGo]
  | succ m ih =>
    intro pi h
    unfold retryGo
    cases hp : env.post pi with
    | exc => simp
    | notJson =>
      have := ih (pi + 1) (fun j hj => by
        have := h (j + 1) (by omega)
        simpa [Nat.add_assoc, Nat.add_comm 1 j] using this)
      rcases this with h' | h' <;> simp [h']
    | nonDict =>
      have := ih (pi + 1) (fun j hj => by
        have := h (j + 1) (by omega)
        simpa [Nat.add_assoc, Nat.add_comm 1 j] using this)
      rcases this with h' | h' <;> simp [h']
    | dict c u r =>
      have h0 := h 0 (by omega)
      rw [Nat.add_zero, hp] at h0
      simp only [isRetrySuccess] at h0
      have := ih (pi + 1) (fun j hj => by
        have := h (j + 1) (by omega)
        simpa [Nat.add_assoc, Nat.add_comm 1 j] using this)
      rcases this with h' | h' <;> simp [h0, h']

/-- Reduction of a step whose initial submission response is
`{correct: false, url: null}`: the step runs the retry loop and then follows
the retry verdict. -/
theorem doStep_retry_branch (env : Env) (e s url : String) (fi pi : Nat)
    (st : Nat) (su : String) (ans : AnswerVal) (r : Option String)
    (hf : env.fetch fi = .ok st (some su) ans) (hst : st < 400)
    (hp : env.post pi = .dict (some false) none r) :
    doStep env e s url fi pi =
      match retryGo env su ⟨e, s, url, ans⟩ 2 (pi + 1) with
      | (.success nu, pi2, evs) =>
        if pyTruthy nu then
          .next (nu.getD "")
            ([Ev.fetch url, Ev.post su ⟨e, s, url, ans⟩] ++ evs ++ [Ev.sleep 250])
            (fi + 1) pi2
        else
          .stop ([Ev.fetch url, Ev.post su ⟨e, s, url, ans⟩] ++ evs) (fi + 1) pi2
      | (.exhausted, pi2, evs) =>
        .stop ([Ev.fetch url, Ev.post su ⟨e, s, url, ans⟩] ++ evs ++
          [Ev.safe_submit url "Error: AI could not determine the answer."])
          (fi + 1) pi2
      | (.aborted, pi2, evs) =>
        .stop ([Ev.fetch url, Ev.post su ⟨e, s, url, ans⟩] ++ evs ++
          [Ev.safe_submit url "Error: submission failed"])
          (fi + 1) pi2 := by
  have h4 : ¬ 400 ≤ st := by omega
  simp [doStep, hf, h4, hp, pyTruthy]

/-- Every step fetches the current URL exactly once and fetches nothing
else. -/
theorem step_fetchUrls (env : Env) (e s url : String) (fi pi : Nat) :
    fetchUrls (stepEvents (doStep env e s url fi pi)) = [url] := by
  cases hf : env.fetch fi with
  | exc => simp [doStep, hf, stepEvents]
  | ok st su ans =>
    by_cases h4 : 400 ≤ st
    · simp [doStep, hf, h4, stepEvents]
    · cases su with
      | none => simp [doStep, hf, h4, stepEvents]
      | some su =>
        cases hp : env.post pi with
        | exc => simp [doStep, hf, h4, hp, stepEvents]
        | notJson => simp [doStep, hf, h4, hp, stepEvents]
        | nonDict => simp [doStep, hf, h4, hp, stepEvents]
        | dict c u r =>
          have hre := retryGo_fetchUrls env su ⟨e, s, url, ans⟩ 2 (pi + 1)
          rcases hr : retryGo env su ⟨e, s, url, ans⟩ 2 (pi + 1) with ⟨ro, pi2, evs⟩
          rw [hr] at hre
          simp only at hre
          cases hc : c.getD true with
          | true =>
            cases hu : pyTruthy u with
            | true => simp [doStep, hf, h4, hp, hc, hu, stepEvents]
            | false => simp [doStep, hf, h4, hp, hc, hu, stepEvents]
          | false =>
            cases hu : pyTruthy u with
            | true => simp [doStep, hf, h4, hp, hc, hu, stepEvents]
            | false =>
              cases ro with
              | success nu =>
                cases hn : pyTruthy nu with
                | true =>
                  simp [doStep, hf, h4, hp, hc, hu, hr, hn, stepEvents, fetchUrls_append, hre]
                | false =>
                  simp [doStep, hf, h4, hp, hc, hu, hr, hn, stepEvents, fetchUrls_append, hre]
              | exhausted =>
                simp [doStep, hf, h4, hp, hc, hu, hr, stepEvents, fetchUrls_append, hre]
              | aborted =>
                simp [doStep, hf, h4, hp, hc, hu, hr, stepEvents, fetchUrls_append, hre]

/-- Fetched URLs of a partial run: none was already visited, and none is
fetched twice. -/
theorem runFrom_fetch_invariant (env : Env) (e s : String) :
    ∀ fuel url vis fi pi,
      (∀ u ∈ fetchUrls (runFrom env e s fuel url vis fi pi), u ∉ vis) ∧
      (fetchUrls (runFrom env e s fuel url vis fi pi)).Nodup := by
  intro fuel
  induction fuel with
  | zero => intro url vis fi pi; simp [runFrom, fetchUrls]
  | succ m ih =>
    intro url vis fi pi
    unfold runFrom
    by_cases h0 : url = ""
    · simp [h0, fetchUrls]
    · rw [if_neg h0]
      by_cases hv : url ∈ vis
      · simp [hv, fetchUrls]
      · rw [if_neg hv]
        have hstep := step_fetchUrls env e s url fi pi
        cases hs : doStep env e s url fi pi with
        | stop evs fi2 pi2 =>
          rw [hs] at hstep
          simp only [stepEvents] at hstep
          refine ⟨?_, ?_⟩
          · intro u hu
            rw [hstep] at hu
            simp at hu
            subst hu
            exact hv
          · rw [hstep]; simp
        | next nxt evs fi2 pi2 =>
          rw [hs] at hstep
          simp only [stepEvents] at hstep
          obtain ⟨ih1, ih2⟩ := ih nxt (url :: vis) fi2 pi2
          refine ⟨?_, ?_⟩
          · intro u hu
            rw [fetchUrls_append, hstep] at hu
            simp at hu
            rcases hu with hu | hu
            · subst hu; exact hv
            · have := ih1 u hu
              simp at this
              exact this.2
          · rw [fetchUrls_append, hstep]
            simp only [List.singleton_append, List.nodup_cons]
            refine ⟨fun hmem => ?_, ih2⟩
            have := ih1 url hmem
            simp at this

/-- A partial run with `fuel` remaining iterations fetches at most `fuel`
pages. -/
theorem runFrom_fetch_le (env : Env) (e s : String) :
    ∀ fuel url vis fi pi,
      (fetchUrls (runFrom env e s fuel url vis fi pi)).length ≤ fuel := by
  intro fuel
  induction fuel with
  | zero => intro url vis fi pi; simp [runFrom, fetchUrls]
  | succ m ih =>
    intro url vis fi pi
    unfold runFrom
    by_cases h0 : url = ""
    · simp [h0, fetchUrls]
    · rw [if_neg h0]
      by_cases hv : url ∈ vis
      · simp [hv, fetchUrls]
      · rw [if_neg hv]
        have hstep := step_fetchUrls env e s url fi pi
        cases hs : doStep env e s url fi pi with
        | stop evs fi2 pi2 =>
          rw [hs] at hstep
          simp only [stepEvents] at hstep
          rw [hstep]
          simp
        | next nxt evs fi2 pi2 =>
          rw [hs] at hstep
          simp only [stepEvents] at hstep
          rw [fetchUrls_append, hstep]
          have := ih nxt (url :: vis) fi2 pi2
          simp only [List.length_append, List.length_singleton]
          omega

/-- Specialisation of `retryGo_success_head` to the 2-attempt retry budget
used by the agent. -/
theorem retryGo_success_head2 (env : Env) (su : String) (P : Envelope)
    (pi : Nat) (h : isRetrySuccess (env.post pi) = true) :
    retryGo env su P 2 pi =
      (.success (urlField (env.post pi)), pi + 1, [Ev.sleep 1000, Ev.post su P]) :=
  retryGo_success_head env su P 1 pi h

/-! ## Claims -/

/-- C1: for every run of the chain-walking loop, regardless of the network
environment, the number of executed steps (pages fetched) never exceeds
`MAX_STEPS = 20`; the loop is a total function of the bounded fuel, so it
terminates even when every submission response carries a fresh `nextUrl`. -/
theorem C1_step_bound (env : Env) (email secret start_url : String) :
    (fetchUrls (run_agent_chain env email secret start_url)).length ≤ MAX_STEPS :=
  runFrom_fetch_le env email secret MAX_STEPS start_url [] 0 0

/-- C2: within one run no URL is ever fetched twice (the fetched URLs are
pairwise distinct), because `current_url` is checked against the
monotonically growing visited set before each fetch; and a loop iteration
that starts on an already-visited URL terminates the run before issuing any
fetch. -/
theorem C2_no_repeat_fetch (env : Env) (email secret start_url : String) :
    (fetchUrls (run_agent_chain env email secret start_url)).Nodup ∧
    (∀ fuel url vis fi pi, url ∈ vis →
      runFrom env email secret fuel url vis fi pi = []) := by
  constructor
  · exact (runFrom_fetch_invariant env email secret MAX_STEPS start_url [] 0 0).2
  · intro fuel url vis fi pi hv
    cases fuel with
    | zero => rfl
    | succ m =>
      by_cases h0 : url = ""
      · simp [runFrom, h0]
      · simp [runFrom, h0, hv]

/-- Witness for C2 at a concrete looping environment and a concrete visited
state. -/
theorem C2_no_repeat_fetch_witness :
    (fetchUrls (run_agent_chain envC2 "e" "s" "u0")).Nodup ∧
    ("u0" ∈ ["u0"] ∧ runFrom envC2 "e" "s" 5 "u0" ["u0"] 0 0 = []) :=
  ⟨(C2_no_repeat_fetch envC2 "e" "s" "u0").1,
   by decide,
   (C2_no_repeat_fetch envC2 "e" "s" "u0").2 5 "u0" ["u0"] 0 0 (by decide)⟩

/-- C3: when a submission response parses to `{correct: false, url: null}`,
the controller performs `k <= 2` additional submissions, all of the exact
same envelope to the same URL, with one 1-second delay per additional
submission (the trace is built as `[sleep 1000, post]` pairs); it
short-circuits after the first additional submission when that response
signals `correct` truthy; and when neither retry response signals success,
exactly one diagnostic (fail-safe) submission is issued and the run
terminates. -/
theorem C3_retry_policy (env : Env) (e s url : String) (fi pi st : Nat)
    (su : String) (ans : AnswerVal) (r : Option String)
    (hf : env.fetch fi = .ok st (some su) ans) (hst : st < 400)
    (hp : env.post pi = .dict (some false) none r) :
    ∃ k, k ≤ 2 ∧
      postEvents (stepEvents (doStep env e s url fi pi)) =
        List.replicate (k + 1) (Ev.post su ⟨e, s, url, ans⟩) ∧
      sleepCount 1000 (stepEvents (doStep env e s url fi pi)) = k ∧
      (isRetrySuccess (env.post (pi + 1)) = true → k = 1) ∧
      (isRetrySuccess (env.post (pi + 1)) = false →
        isRetrySuccess (env.post (pi + 2)) = false →
        safeCount (stepEvents (doStep env e s url fi pi)) = 1 ∧
        isStopRes (doStep env e s url fi pi) = true) := by
  obtain ⟨k, hk, hpost, hsleep⟩ := retryGo_spec env su ⟨e, s, url, ans⟩ 2 (pi + 1)
  have hsafe := retryGo_safeCount env su ⟨e, s, url, ans⟩ 2 (pi + 1)
  rw [doStep_retry_branch env e s url fi pi st su ans r hf hst hp]
  rcases hr : retryGo env su ⟨e, s, url, ans⟩ 2 (pi + 1) with ⟨ro, pi2, evs⟩
  rw [hr] at hpost hsleep hsafe
  simp only at hpost hsleep hsafe
  cases ro with
  | success nu =>
    have short : isRetrySuccess (env.post (pi + 1)) = true → k = 1 := by
      intro hsucc
      have hh := retryGo_success_head2 env su ⟨e, s, url, ans⟩ (pi + 1) hsucc
      rw [hr] at hh
      simp only [Prod.mk.injEq] at hh
      obtain ⟨-, -, hevs⟩ := hh
      rw [hevs] at hpost
      have hlen := congrArg List.length hpost
      simp at hlen
      omega
    have nofail : isRetrySuccess (env.post (pi + 1)) = false →
        isRetrySuccess (env.post (pi + 2)) = false → False := by
      intro h1 h2
      have hns := retryGo_no_success env su ⟨e, s, url, ans⟩ 2 (pi + 1)
        (fun j hj =>
          match j, hj with
          | 0, _ => h1
          | 1, _ => h2
          | n + 2, hj => absurd hj (by omega))
      rw [hr] at hns
      simp at hns
    cases hn : pyTruthy nu with
    | true =>
      refine ⟨k, hk, ?_, ?_, short, fun h1 h2 => absurd (nofail h1 h2) id⟩
      · simp [hn, stepEvents, postEvents_append, hpost, List.replicate_succ]
      · simp [hn, stepEvents, sleepCount_append, hsleep, sleepCount_cons_sleep]
    | false =>
      refine ⟨k, hk, ?_, ?_, short, fun h1 h2 => absurd (nofail h1 h2) id⟩
      · simp [hn, stepEvents, postEvents_append, hpost, List.replicate_succ]
      · simp [hn, stepEvents, sleepCount_append, hsleep, sleepCount_cons_sleep]
  | exhausted =>
    refine ⟨k, hk, ?_, ?_, ?_, ?_⟩
    · simp [stepEvents, postEvents_append, hpost, List.replicate_succ]
    · simp [stepEvents, sleepCount_append, hsleep]
    · intro hsucc
      have hh := retryGo_success_head2 env su ⟨e, s, url, ans⟩ (pi + 1) hsucc
      rw [hr] at hh
      simp at hh
    · intro h1 h2
      constructor
      · simp [stepEvents, safeCount_append, hsafe]
      · simp [isStopRes]
  | aborted =>
    refine ⟨k, hk, ?_, ?_, ?_, ?_⟩
    · simp [stepEvents, postEvents_append, hpost, List.replicate_succ]
    · simp [stepEvents, sleepCount_append, hsleep]
    · intro hsucc
      have hh := retryGo_success_head2 env su ⟨e, s, url, ans⟩ (pi + 1) hsucc
      rw [hr] at hh
      simp at hh
    · intro h1 h2
      constructor
      · simp [stepEvents, safeCount_append, hsafe]
      · simp [isStopRes]

/-- Witness for C3 at a concrete environment whose submissions always answer
`{correct: false, url: null}`. -/
theorem C3_retry_policy_witness :
    envC3.fetch 0 = .ok 200 (some "S") (.str "a") ∧ (200 : Nat) < 400 ∧
    envC3.post 0 = .dict (some false) none none ∧
    (∃ k, k ≤ 2 ∧
      postEvents (stepEvents (doStep envC3 "e" "s" "u0" 0 0)) =
        List.replicate (k + 1) (Ev.post "S" ⟨"e", "s", "u0", .str "a"⟩) ∧
      sleepCount 1000 (stepEvents (doStep envC3 "e" "s" "u0" 0 0)) = k ∧
      (isRetrySuccess (envC3.post 1) = true → k = 1) ∧
      (isRetrySuccess (envC3.post 1) = false →
        isRetrySuccess (envC3.post 2) = false →
        safeCount (stepEvents (doStep envC3 "e" "s" "u0" 0 0)) = 1 ∧
        isStopRes (doStep envC3 "e" "s" "u0" 0 0) = true)) :=
  ⟨rfl, by omega, rfl,
   C3_retry_policy envC3 "e" "s" "u0" 0 0 200 "S" (.str "a") none rfl (by omega) rfl⟩

/-- C4 counterexample: the claim asserts that a retry response with the
`correct` field absent is treated as `correct == true`; if that held here,
the first retry (a dict with `correct` absent and `url = "http://next"`
present) would short-circuit the retry loop with success and the step would
advance after 2 POSTs in total.  Instead the code reads the retry response
with `.get("correct", False)`, counts it as a failure, issues the second
retry (3 POSTs in total), and the step ends in a `stop`. -/
theorem C4_correct_default_cx :
    envC4.post 1 = .dict none (some "http://next") none ∧
    (postEvents (stepEvents (doStep envC4 "e" "s" "u0" 0 0))).length = 3 ∧
    isStopRes (doStep envC4 "e" "s" "u0" 0 0) = true := by decide

/-- C4 amended: a parseable JSON-object response to the *initial* submission
with the `correct` field absent is treated as `correct == true` (no retry
phase; advance on a truthy `url`, otherwise finish); but a *retry* response
with `correct` absent is treated as `correct == false` — it is counted as a
failed attempt and the remaining retry still occurs (3 POSTs in total). -/
theorem C4_correct_default_amended :
    (∀ (env : Env) (e s url : String) (fi pi st : Nat) (su : String)
       (ans : AnswerVal) (u r : Option String),
       env.fetch fi = .ok st (some su) ans → st < 400 →
       env.post pi = .dict none u r →
       doStep env e s url fi pi =
         if pyTruthy u then
           .next (u.getD "")
             [Ev.fetch url, Ev.post su ⟨e, s, url, ans⟩, Ev.sleep 250]
             (fi + 1) (pi + 1)
         else
           .stop [Ev.fetch url, Ev.post su ⟨e, s, url, ans⟩] (fi + 1) (pi + 1)) ∧
    (∀ (env : Env) (e s url : String) (fi pi st : Nat) (su : String)
       (ans : AnswerVal) (r u1 r1 : Option String),
       env.fetch fi = .ok st (some su) ans → st < 400 →
       env.post pi = .dict (some false) none r →
       env.post (pi + 1) = .dict none u1 r1 →
       (postEvents (stepEvents (doStep env e s url fi pi))).length = 3) := by
  constructor
  · intro env e s url fi pi st su ans u r hf hst hp
    have h4 : ¬ 400 ≤ st := by omega
    cases hu : pyTruthy u with
    | true => simp [doStep, hf, h4, hp, hu]
    | false => simp [doStep, hf, h4, hp, hu]
  · intro env e s url fi pi st su ans r u1 r1 hf hst hp hp1
    rw [doStep_retry_branch env e s url fi pi st su ans r hf hst hp]
    have e12 : pi + 1 + 1 = pi + 2 := rfl
    cases hp2 : env.post (pi + 2) with
    | exc =>
      simp [retryGo, hp1, e12, hp2, stepEvents, postEvents_append]
    | notJson =>
      simp [retryGo, hp1, e12, hp2, stepEvents, postEvents_append]
    | nonDict =>
      simp [retryGo, hp1, e12, hp2, stepEvents, postEvents_append]
    | dict c2 u2 r2 =>
      cases hc2 : c2.getD false with
      | true =>
        cases hn : pyTruthy u2 with
        | true => simp [retryGo, hp1, e12, hp2, hc2, hn, stepEvents, postEvents_append]
        | false => simp [retryGo, hp1, e12, hp2, hc2, hn, stepEvents, postEvents_append]
      | false =>
        simp [retryGo, hp1, e12, hp2, hc2, stepEvents, postEvents_append]

/-- Witness for the two parts of the amended C4 at concrete environments. -/
theorem C4_correct_default_amended_witness :
    (envC4w.post 0 = .dict none (some "http://next") none ∧
     doStep envC4w "e" "s" "u0" 0 0 =
       if pyTruthy (some "http://next") then
         .next ((some "http://next").getD "")
           [Ev.fetch "u0", Ev.post "S" ⟨"e", "s", "u0", .str "a"⟩, Ev.sleep 250] 1 1
       else
         .stop [Ev.fetch "u0", Ev.post "S" ⟨"e", "s", "u0", .str "a"⟩] 1 1) ∧
    (envC4w2.post 0 = .dict (some false) none none ∧
     envC4w2.post 1 = .dict none none none ∧
     (postEvents (stepEvents (doStep envC4w2 "e" "s" "u0" 0 0))).length = 3) :=
  ⟨⟨rfl, C4_correct_default_amended.1 envC4w "e" "s" "u0" 0 0 200 "S" (.str "a")
      (some "http://next") none rfl (by omega) rfl⟩,
   ⟨rfl, rfl, C4_correct_default_amended.2 envC4w2 "e" "s" "u0" 0 0 200 "S" (.str "a")
      none none none rfl (by omega) rfl rfl⟩⟩

/-- C5 counterexample: the claim asserts that an unparseable initial
submission response triggers a diagnostic submission before terminating; in
the code the `except` around `post_resp.json()` only logs and breaks, so the
complete run trace is just the fetch and the submission POST — it contains
no diagnostic `safe_submit` event. -/
theorem C5_nonjson_cx :
    envC5.post 0 = .notJson ∧
    run_agent_chain envC5 "e" "s" "u0" =
      [Ev.fetch "u0", Ev.post "S" ⟨"e", "s", "u0", .str "a"⟩] ∧
    safeCount (run_agent_chain envC5 "e" "s" "u0") = 0 := by decide

/-- C5 amended: when the body of the initial submission response is not
parseable JSON, the run terminates immediately with no retry attempted and
no diagnostic submission (diagnostics are reserved for fetch errors,
transport failures, and exhausted retries). -/
theorem C5_nonjson_amended (env : Env) (e s url : String) (fi pi st : Nat)
    (su : String) (ans : AnswerVal)
    (hf : env.fetch fi = .ok st (some su) ans) (hst : st < 400)
    (hp : env.post pi = .notJson) :
    doStep env e s url fi pi =
      .stop [Ev.fetch url, Ev.post su ⟨e, s, url, ans⟩] (fi + 1) (pi + 1) := by
  have h4 : ¬ 400 ≤ st := by omega
  simp [doStep, hf, h4, hp]

/-- Witness for the amended C5 at a concrete environment. -/
theorem C5_nonjson_amended_witness :
    envC5.fetch 0 = .ok 200 (some "S") (.str "a") ∧ (200 : Nat) < 400 ∧
    envC5.post 0 = .notJson ∧
    doStep envC5 "e" "s" "u0" 0 0 =
      .stop [Ev.fetch "u0", Ev.post "S" ⟨"e", "s", "u0", .str "a"⟩] 1 1 :=
  ⟨rfl, by omega, rfl,
   C5_nonjson_amended envC5 "e" "s" "u0" 0 0 200 "S" (.str "a") rfl (by omega) rfl⟩

/-- C6 counterexample: the claim asserts that any response carrying a
non-null `nextUrl` advances the chain; `{correct: false, url: ""}` carries
the non-null next URL `""`, yet Python truthiness sends the controller into
the retry path: the step issues the two retries (3 POSTs in total), one
diagnostic submission, and stops instead of advancing. -/
theorem C6_advance_cx :
    envC6.post 0 = .dict (some false) (some "") none ∧
    isStopRes (doStep envC6 "e" "s" "u0" 0 0) = true ∧
    (postEvents (stepEvents (doStep envC6 "e" "s" "u0" 0 0))).length = 3 ∧
    safeCount (stepEvents (doStep envC6 "e" "s" "u0" 0 0)) = 1 := by decide

/-- C6 amended: whenever a parseable submission response contains a
*non-empty* `nextUrl` string, the controller advances `current_url` to it
and continues the loop regardless of the `correct` field (in particular
`correct == false` with a non-empty `nextUrl` advances rather than
retrying); a null or empty `url` field is falsy and does not advance. -/
theorem C6_advance_amended (env : Env) (e s url : String) (fi pi st : Nat)
    (su : String) (ans : AnswerVal) (c : Option Bool) (nu : String)
    (r : Option String)
    (hf : env.fetch fi = .ok st (some su) ans) (hst : st < 400)
    (hp : env.post pi = .dict c (some nu) r) (hnu : nu ≠ "") :
    doStep env e s url fi pi =
      .next nu [Ev.fetch url, Ev.post su ⟨e, s, url, ans⟩, Ev.sleep 250]
        (fi + 1) (pi + 1) := by
  have h4 : ¬ 400 ≤ st := by omega
  have hu : pyTruthy (some nu) = true := by simp [pyTruthy, hnu]
  cases c with
  | none => simp [doStep, hf, h4, hp, hu]
  | some b => cases b <;> simp [doStep, hf, h4, hp, hu]

/-- Witness for the amended C6: a `{correct: false, url: "http://next"}`
response advances. -/
theorem C6_advance_amended_witness :
    envC6w.fetch 0 = .ok 200 (some "S") (.str "a") ∧ (200 : Nat) < 400 ∧
    envC6w.post 0 = .dict (some false) (some "http://next") none ∧
    ("http://next" : String) ≠ "" ∧
    doStep envC6w "e" "s" "u0" 0 0 =
      .next "http://next"
        [Ev.fetch "u0", Ev.post "S" ⟨"e", "s", "u0", .str "a"⟩, Ev.sleep 250] 1 1 :=
  ⟨rfl, by omega, rfl, by decide,
   C6_advance_amended envC6w "e" "s" "u0" 0 0 200 "S" (.str "a") (some false)
     "http://next" none rfl (by omega) rfl (by decide)⟩

/-- C7: when fetching the current page returns an HTTP status >= 400, the
remainder of the run is exactly one fetch followed by exactly one diagnostic
(fail-safe) submission carrying the failing URL and the error string; the
run terminates with no further fetch. -/
theorem C7_fetch_error_diag (env : Env) (e s : String) (fuel : Nat)
    (url : String) (vis : List String) (fi pi st : Nat) (su : Option String)
    (ans : AnswerVal)
    (h0 : url ≠ "") (hv : url ∉ vis)
    (hf : env.fetch fi = .ok st su ans) (hst : 400 ≤ st) :
    runFrom env e s (fuel + 1) url vis fi pi =
      [Ev.fetch url,
       Ev.safe_submit url ("Error: HTTP " ++ toString st ++ " for " ++ url)] := by
  simp only [runFrom]
  rw [if_neg h0, if_neg hv]
  simp [doStep, hf, hst]

/-- Witness for C7: a full 20-step-budget run against an environment
answering 404 reduces to the single fetch and the single diagnostic. -/
theorem C7_fetch_error_diag_witness :
    ("u0" : String) ≠ "" ∧ "u0" ∉ ([] : List String) ∧
    envC7.fetch 0 = .ok 404 none (.str "a") ∧ (400 : Nat) ≤ 404 ∧
    runFrom envC7 "e" "s" (19 + 1) "u0" [] 0 0 =
      [Ev.fetch "u0",
       Ev.safe_submit "u0" ("Error: HTTP " ++ toString (404 : Nat) ++ " for " ++ "u0")] :=
  ⟨by decide, by decide, rfl, by omega,
   C7_fetch_error_diag envC7 "e" "s" 19 "u0" [] 0 0 404 none (.str "a")
     (by decide) (by decide) rfl (by omega)⟩

/-- C8: resolving the CSV-sum task against the mock server's
`/files/local_cities.csv` body (header `ID,Name,Population`, populations
8175133, 3792621, 2695598, 2100263) yields exactly the integer 16763615,
for any resource URL: the `population` column is selected by preferred
header name and its values are summed. -/
theorem C8_csv_roundtrip (csv_url : String) :
    answer_csv_sum csv_url 200 get_local_csv = .int 16763615 := by
  unfold answer_csv_sum
  rw [if_neg (by decide : ¬((200 : Nat) ≠ 200))]
  decide

/-- C9: during the retry phase, a retry response whose body is not parseable
JSON does not terminate the run and triggers no diagnostic submission by
itself: it counts as one failed retry attempt, the remaining retry is still
issued (3 POSTs in total for the step), and when that remaining retry
succeeds no diagnostic submission occurs at all. -/
theorem C9_retry_nonjson (env : Env) (e s url : String) (fi pi st : Nat)
    (su : String) (ans : AnswerVal) (r : Option String)
    (hf : env.fetch fi = .ok st (some su) ans) (hst : st < 400)
    (hp : env.post pi = .dict (some false) none r)
    (hp1 : env.post (pi + 1) = .notJson) :
    (postEvents (stepEvents (doStep env e s url fi pi))).length = 3 ∧
    (isRetrySuccess (env.post (pi + 2)) = true →
      safeCount (stepEvents (doStep env e s url fi pi)) = 0) := by
  rw [doStep_retry_branch env e s url fi pi st su ans r hf hst hp]
  have e12 : pi + 1 + 1 = pi + 2 := rfl
  cases hp2 : env.post (pi + 2) with
  | exc =>
    constructor
    · simp [retryGo, hp1, e12, hp2, stepEvents, postEvents_append]
    · intro h
      simp [isRetrySuccess] at h
  | notJson =>
    constructor
    · simp [retryGo, hp1, e12, hp2, stepEvents, postEvents_append]
    · intro h
      simp [isRetrySuccess] at h
  | nonDict =>
    constructor
    · simp [retryGo, hp1, e12, hp2, stepEvents, postEvents_append]
    · intro h
      simp [isRetrySuccess] at h
  | dict c2 u2 r2 =>
    cases hc2 : c2.getD false with
    | true =>
      cases hn : pyTruthy u2 with
      | true =>
        constructor
        · simp [retryGo, hp1, e12, hp2, hc2, hn, stepEvents, postEvents_append]
        · intro _
          simp [retryGo, hp1, e12, hp2, hc2, hn, stepEvents, safeCount_append]
      | false =>
        constructor
        · simp [retryGo, hp1, e12, hp2, hc2, hn, stepEvents, postEvents_append]
        · intro _
          simp [retryGo, hp1, e12, hp2, hc2, hn, stepEvents, safeCount_append]
    | false =>
      constructor
      · simp [retryGo, hp1, e12, hp2, hc2, stepEvents, postEvents_append]
      · intro h
        simp [isRetrySuccess, hc2] at h

/-- Witness for C9 at a concrete environment where the first retry body is
not JSON and the second retry succeeds with a next URL. -/
theorem C9_retry_nonjson_witness :
    envC9.fetch 0 = .ok 200 (some "S") (.str "a") ∧ (200 : Nat) < 400 ∧
    envC9.post 0 = .dict (some false) none none ∧ envC9.post 1 = .notJson ∧
    ((postEvents (stepEvents (doStep envC9 "e" "s" "u0" 0 0))).length = 3 ∧
     (isRetrySuccess (envC9.post 2) = true →
       safeCount (stepEvents (doStep envC9 "e" "s" "u0" 0 0)) = 0)) :=
  ⟨rfl, by omega, rfl, rfl,
   C9_retry_nonjson envC9 "e" "s" "u0" 0 0 200 "S" (.str "a") none
     rfl (by omega) rfl rfl⟩

/-- C10: the start endpoint validates field presence before authorisation:
any request with a missing or empty-string `email`, `secret`, or `url` field
is rejected with the 422 validation error, whatever the supplied secret; and
a 403 unauthorized rejection can only happen when all three fields are
present and non-empty. -/
theorem C10_start_validation :
    (∀ (email secret url : Option String) (my_secret : String),
       (pyFalsy email || pyFalsy secret || pyFalsy url) = true →
       start_quiz email secret url my_secret = .unprocessable422) ∧
    (∀ (email secret url : Option String) (my_secret : String),
       start_quiz email secret url my_secret = .unauthorized403 →
       pyFalsy email = false ∧ pyFalsy secret = false ∧ pyFalsy url = false) := by
  constructor
  · intro email secret url ms h
    simp [start_quiz, h]
  · intro email secret url ms h
    by_cases hb : (pyFalsy email || pyFalsy secret || pyFalsy url) = true
    · rw [start_quiz, if_pos hb] at h
      simp at h
    · simp only [Bool.or_eq_true, not_or, Bool.not_eq_true] at hb
      exact ⟨hb.1.1, hb.1.2, hb.2⟩

/-- Witness for C10: a missing email with a mismatched secret still yields
422, and a 403 outcome exhibits all three fields present and non-empty. -/
theorem C10_start_validation_witness :
    ((pyFalsy none || pyFalsy (some "wrong") || pyFalsy (some "http://x")) = true ∧
     start_quiz none (some "wrong") (some "http://x") "real" = .unprocessable422) ∧
    (start_quiz (some "a@b.c") (some "bad") (some "http://x") "good" = .unauthorized403 ∧
     pyFalsy (some "a@b.c") = false ∧ pyFalsy (some "bad") = false ∧
     pyFalsy (some "http://x") = false) :=
  ⟨⟨by decide, C10_start_validation.1 none (some "wrong") (some "http://x") "real" (by decide)⟩,
   ⟨by decide, C10_start_validation.2 (some "a@b.c") (some "bad") (some "http://x") "good" (by decide)⟩⟩

end QuizAgent
